import Mathlib

/-!
# Verification of the ClinicalPredictor scoring core

Shallow embedding of `backend/ai_system/core/predictor.py`
(class `ClinicalPredictor`): symptom parsing, disease-pattern matching,
risk assessment, recommendation generation and the aggregate confidence.

Modelling conventions:
* Python numbers are modelled as exact rationals (`ℚ`); integers used for
  counting as `ℕ`/`ℤ`.  Python's `round(x, n)` is modelled as round-half-to-even
  on the exact rational value (`roundHalfEven`); binary floating-point
  representation effects are outside the model.
* Python `dict` lookups `d.get(k, default)` on request payloads are modelled
  with total functions / `Option` defaults.
* CPython's `set` has unspecified iteration order; lists produced from sets
  (`list(set(...))`) are modelled as `List.dedup` (first-occurrence order);
  the claims below only depend on their membership, never on their order.
* `datetime.now()` is abstracted as an explicit `now : String` parameter;
  it only feeds the analysis id and the timestamp fields.
* Python's `list.sort(key=..., reverse=True)` is a stable descending sort;
  it is modelled by the (extensionally unique) stable insertion sort
  `sortByConfidenceDesc`.
-/

namespace ClinicalPredictor

/-- Executable minimum on `ℚ` (agrees with `min`, see `minQ_eq_min`);
used so that concrete runs of the model reduce inside the kernel. -/
def minQ (a b : ℚ) : ℚ := if a ≤ b then a else b

/-- A value a symptom field of the request payload may hold
(Python: `bool`, `int`/`float`, `str`, or the key being absent /
`None`).  `absent` also covers every other (ignored) value kind. -/
inductive SymValue where
  | absent : SymValue
  | vBool : Bool → SymValue
  | vNum : ℚ → SymValue
  | vStr : String → SymValue
deriving DecidableEq

/-- The `symptoms` mapping handed to `analyze_symptoms`:
`fields name` models `symptoms.get(name)`, `duration_days` models the
optional `"duration_days"` key (default 1), `symptom_description` the
optional `"symptom_description"` key (absent ≡ the falsy `""`). -/
structure SymptomsInput where
  fields : String → SymValue
  duration_days : Option ℤ := none
  symptom_description : String := ""

/-- Result of `_parse_symptom_data`. -/
structure ParsedSymptoms where
  primary_symptoms : List String
  symptom_details : List (String × String)
  severity_scores : List (String × ℚ)
  duration_days : ℤ
  symptom_text : String
deriving DecidableEq

/-- The fixed 20-entry symptom field vocabulary (`symptom_fields`). -/
def symptomFields : List String :=
  ["fever", "cough", "headache", "fatigue", "nausea", "vomiting",
   "diarrhea", "shortness_of_breath", "chest_pain", "sore_throat",
   "runny_nose", "body_aches", "chills", "dizziness", "abdominal_pain",
   "loss_of_taste", "loss_of_smell", "rash", "joint_pain", "back_pain"]

/-- ASCII lowercasing, modelling `str.lower()` on the inputs at hand. -/
def strLower (s : String) : String := s.map Char.toLower

/-- The falsy strings of the parser's string branch. -/
def falsyStrings : List String := ["no", "false", "none", "0"]

/-- One iteration of the parser's field loop: given the field `name` and the
payload value, extend the accumulated parse.  Mirrors the
`if value: / isinstance` cascade of `_parse_symptom_data`:
a `bool` that is true records the symptom with default severity 5; a number
records it with severity `min 10 value` provided the value is positive; a
non-falsy string records it with the raw string as detail (no severity). -/
def parseFieldValue (name : String) (v : SymValue) (acc : ParsedSymptoms) :
    ParsedSymptoms :=
  match v with
  | .absent => acc
  | .vBool b =>
      if b then
        { acc with
          primary_symptoms := acc.primary_symptoms ++ [name],
          severity_scores := acc.severity_scores ++ [(name, 5)] }
      else acc
  | .vNum q =>
      if 0 < q then
        { acc with
          primary_symptoms := acc.primary_symptoms ++ [name],
          severity_scores := acc.severity_scores ++ [(name, minQ 10 q)] }
      else acc
  | .vStr s =>
      if s ≠ "" ∧ strLower s ∉ falsyStrings then
        { acc with
          primary_symptoms := acc.primary_symptoms ++ [name],
          symptom_details := acc.symptom_details ++ [(name, s)] }
      else acc

/-- The keyword table of `_extract_from_text`. -/
def symptomKeywords : List (String × List String) :=
  [("fever", ["fever", "temperature", "hot", "chills"]),
   ("cough", ["cough", "coughing", "hacking"]),
   ("headache", ["headache", "head pain", "migraine"]),
   ("fatigue", ["tired", "fatigue", "exhausted", "weak"]),
   ("nausea", ["nausea", "queasy", "sick to stomach"]),
   ("vomiting", ["vomit", "throwing up"]),
   ("diarrhea", ["diarrhea", "loose stool"]),
   ("shortness_of_breath", ["short of breath", "can\x27t breathe", "breathless"]),
   ("chest_pain", ["chest pain", "chest tightness", "heart pain"]),
   ("sore_throat", ["sore throat", "throat pain"]),
   ("runny_nose", ["runny nose", "nasal discharge"]),
   ("body_aches", ["body aches", "muscle pain", "joint pain"])]

/-- Substring containment (`keyword in text` on Python strings). -/
def containsSub (text kw : String) : Bool :=
  decide (kw.toList <:+: text.toList)

/-- `_extract_from_text`: every keyword-table entry one of whose keywords
occurs in the lowercased text contributes its symptom name, in table order. -/
def extractFromText (text : String) : List String :=
  let tl := strLower text
  (symptomKeywords.filter (fun p => p.2.any (fun kw => containsSub tl kw))).map
    Prod.fst

/-- `_parse_symptom_data`: fold the field loop over the 20-entry vocabulary,
then extend the primary list with text-extracted symptoms not already
present. -/
def parseSymptomData (input : SymptomsInput) : ParsedSymptoms :=
  let base : ParsedSymptoms :=
    { primary_symptoms := [], symptom_details := [], severity_scores := [],
      duration_days := input.duration_days.getD 1,
      symptom_text := input.symptom_description }
  let p := symptomFields.foldl
    (fun acc name => parseFieldValue name (input.fields name) acc) base
  if input.symptom_description ≠ "" then
    let ts := extractFromText input.symptom_description
    { p with primary_symptoms :=
        p.primary_symptoms ++ ts.filter (fun s => s ∉ p.primary_symptoms) }
  else p

/-! ## Rounding

Python's `round` (round half to even), on exact rational values. -/

/-- Round half to even to the nearest integer.  Uses the executable
`Rat.floor` (equal to `⌊·⌋`, see `ratFloor_eq_floor`). -/
def roundHalfEven (q : ℚ) : ℤ :=
  if q - q.floor < 1/2 then q.floor
  else if 1/2 < q - q.floor then q.floor + 1
  else if q.floor % 2 = 0 then q.floor else q.floor + 1

/-- `round(x, 1)`. -/
def pyRound1 (q : ℚ) : ℚ := (roundHalfEven (q * 10) : ℚ) / 10

/-- `round(x, 2)`. -/
def pyRound2 (q : ℚ) : ℚ := (roundHalfEven (q * 100) : ℚ) / 100

/-! ## Disease catalog -/

/-- One catalog entry of `_load_disease_patterns`.  Patterns without a
`"warning_symptoms"` key are modelled with the empty list, matching the
`pattern.get("warning_symptoms", [])` accesses; every entry of the catalog
sets `"min_core_symptoms"` (to 2), so the `.get(..., 1)` default never
applies and the field is plain. -/
structure DiseasePattern where
  core_symptoms : List String
  common_symptoms : List String
  warning_symptoms : List String := []
  min_core_symptoms : ℕ
  urgency : String
deriving DecidableEq

/-- The static catalog, in insertion order. -/
def diseasePatterns : List (String × DiseasePattern) :=
  [("Common Cold",
    { core_symptoms := ["runny_nose", "sore_throat", "sneezing"],
      common_symptoms := ["cough", "congestion", "mild_headache", "fatigue"],
      min_core_symptoms := 2, urgency := "low" }),
   ("Influenza (Flu)",
    { core_symptoms := ["fever", "body_aches", "fatigue"],
      common_symptoms := ["cough", "headache", "chills", "sore_throat"],
      warning_symptoms := ["high_fever", "difficulty_breathing"],
      min_core_symptoms := 2, urgency := "medium" }),
   ("COVID-19",
    { core_symptoms := ["fever", "cough", "fatigue"],
      common_symptoms := ["loss_of_taste", "loss_of_smell",
                          "shortness_of_breath", "headache"],
      warning_symptoms := ["severe_shortness_of_breath", "chest_pain"],
      min_core_symptoms := 2, urgency := "medium" }),
   ("Migraine",
    { core_symptoms := ["headache", "sensitivity_to_light"],
      common_symptoms := ["nausea", "sensitivity_to_sound", "aura"],
      min_core_symptoms := 2, urgency := "medium" }),
   ("Gastroenteritis (Stomach Flu)",
    { core_symptoms := ["nausea", "vomiting", "diarrhea"],
      common_symptoms := ["abdominal_pain", "fever", "body_aches"],
      warning_symptoms := ["severe_dehydration", "blood_in_stool"],
      min_core_symptoms := 2, urgency := "low" }),
   ("Bronchitis",
    { core_symptoms := ["cough", "chest_discomfort"],
      common_symptoms := ["fatigue", "shortness_of_breath", "mild_fever"],
      min_core_symptoms := 2, urgency := "medium" }),
   ("Urinary Tract Infection (UTI)",
    { core_symptoms := ["painful_urination", "frequent_urination"],
      common_symptoms := ["abdominal_pain", "fever", "back_pain"],
      min_core_symptoms := 2, urgency := "medium" }),
   ("Anxiety/Panic Attack",
    { core_symptoms := ["shortness_of_breath", "chest_pain",
                        "rapid_heartbeat"],
      common_symptoms := ["dizziness", "sweating", "trembling"],
      min_core_symptoms := 2, urgency := "medium" })]

/-! ## Disease matching (`_predict_diseases`) -/

/-- One entry of the prediction list. -/
structure Prediction where
  disease : String
  confidence : ℚ
  matching_symptoms : List String
  missing_symptoms : List String
  urgency : String
deriving DecidableEq

instance : Inhabited Prediction :=
  ⟨{ disease := "", confidence := 0, matching_symptoms := [],
     missing_symptoms := [], urgency := "" }⟩

/-- `len(set(pattern["core_symptoms"]).intersection(patient_symptoms))`:
the number of distinct core symptoms the patient has. -/
def coreMatchCount (pat : DiseasePattern) (patient : List String) : ℕ :=
  ((pat.core_symptoms.dedup).filter (fun s => s ∈ patient)).length

/-- Distinct common symptoms the patient has. -/
def commonMatchCount (pat : DiseasePattern) (patient : List String) : ℕ :=
  ((pat.common_symptoms.dedup).filter (fun s => s ∈ patient)).length

/-- Distinct warning symptoms the patient has. -/
def warningMatchCount (pat : DiseasePattern) (patient : List String) : ℕ :=
  ((pat.warning_symptoms.dedup).filter (fun s => s ∈ patient)).length

/-- The score accumulated for one pattern: core matches weighted 3 (only
when the `min_core_symptoms` gate passes), common matches weighted 2,
warning matches weighted 4. -/
def patternScore (pat : DiseasePattern) (patient : List String) : ℕ :=
  (if pat.min_core_symptoms ≤ coreMatchCount pat patient then
      3 * coreMatchCount pat patient
    else 0)
  + 2 * commonMatchCount pat patient
  + 4 * warningMatchCount pat patient

/-- The `matching_symptoms` output list: matched core symptoms (only when
the gate passes) followed by matched common symptoms, deduplicated
(`list(set(matching_symptoms))`). -/
def matchingSymptoms (pat : DiseasePattern) (patient : List String) :
    List String :=
  ((if pat.min_core_symptoms ≤ coreMatchCount pat patient then
      pat.core_symptoms.filter (fun s => s ∈ patient)
    else [])
    ++ pat.common_symptoms.filter (fun s => s ∈ patient)).dedup

/-- The `missing_symptoms` output list:
`set(core + common) - patient_symptoms`. -/
def missingSymptoms (pat : DiseasePattern) (patient : List String) :
    List String :=
  ((pat.core_symptoms ++ pat.common_symptoms).dedup).filter
    (fun s => s ∉ patient)

/-- `max_possible_score`: raw list lengths weighted 3/2/4. -/
def maxPossibleScore (pat : DiseasePattern) : ℕ :=
  3 * pat.core_symptoms.length + 2 * pat.common_symptoms.length
    + 4 * pat.warning_symptoms.length

/-- The pre-rounding confidence:
`min(95, (score / max_possible_score * 100) if max_possible_score > 0 else 0)`. -/
def rawConfidence (pat : DiseasePattern) (patient : List String) : ℚ :=
  minQ 95
    (if 0 < maxPossibleScore pat then
      (patternScore pat patient : ℚ) / (maxPossibleScore pat : ℚ) * 100
    else 0)

/-- The loop body of `_predict_diseases` for one catalog entry: a prediction
when the score is positive, nothing otherwise. -/
def predictionFor (name : String) (pat : DiseasePattern)
    (patient : List String) : Option Prediction :=
  if 0 < patternScore pat patient then
    some { disease := name,
           confidence := pyRound1 (rawConfidence pat patient),
           matching_symptoms := matchingSymptoms pat patient,
           missing_symptoms := missingSymptoms pat patient,
           urgency := pat.urgency }
  else none

/-- The unsorted prediction list, in catalog order. -/
def rawPredictions (patient : List String) : List Prediction :=
  diseasePatterns.filterMap (fun np => predictionFor np.1 np.2 patient)

/-- Insert a prediction into a list sorted by descending confidence, before
the first element of smaller-or-equal confidence.  Because the insertion
sort below processes the list from the right, each inserted element is
placed before every equal-confidence element already present, which are
exactly the elements that followed it originally: the resulting sort is
stable, hence extensionally equal to Python's
`list.sort(key=confidence, reverse=True)`. -/
def insertByConfidenceDesc (x : Prediction) :
    List Prediction → List Prediction
  | [] => [x]
  | y :: ys =>
      if y.confidence ≤ x.confidence then x :: y :: ys
      else y :: insertByConfidenceDesc x ys

/-- Stable sort by descending confidence. -/
def sortByConfidenceDesc (l : List Prediction) : List Prediction :=
  l.foldr insertByConfidenceDesc []

/-- `_predict_diseases`: score every catalog entry, keep positive scores,
sort by descending confidence (stably) and keep the top 5. -/
def predictDiseases (patient : List String) : List Prediction :=
  (sortByConfidenceDesc (rawPredictions patient)).take 5

/-! ## Risk assessment (`_assess_risk`) -/

/-- The `patient_info` mapping; `.get` defaults of the source are the
field defaults. -/
structure PatientInfo where
  age : ℤ := 30
  has_chronic_conditions : Bool := false
  is_pregnant : Bool := false
  is_smoker : Bool := false
  is_immunocompromised : Bool := false
deriving DecidableEq

/-- Result of `_assess_risk`. -/
structure RiskAssessment where
  risk_score : ℕ
  urgency_level : String
  recommended_action : String
  max_wait_time : String
  warning_signs : List String
  patient_risk_factors : List String
deriving DecidableEq

/-- The fixed high-risk symptom list (+3 each). -/
def highRiskSymptoms : List String :=
  ["chest_pain", "shortness_of_breath", "severe_headache", "confusion",
   "unconsciousness", "severe_bleeding"]

/-- The fixed medium-risk symptom list (+2 each). -/
def mediumRiskSymptoms : List String :=
  ["high_fever", "severe_vomiting", "severe_diarrhea",
   "difficulty_swallowing", "severe_abdominal_pain"]

/-- Age factor: `if age >= 65: +2 elif age <= 5: +1`. -/
def ageFactor (age : ℤ) : ℕ :=
  if 65 ≤ age then 2 else if age ≤ 5 then 1 else 0

/-- Duration factor, mirroring the source's `if duration > 14: +1
elif duration > 30: +2` — note the `elif`: the second branch is only
reached when `duration ≤ 14`, so it can never fire. -/
def durationFactor (duration : ℤ) : ℕ :=
  if 14 < duration then 1 else if 30 < duration then 2 else 0

/-- The warning-sign list: triggered high-risk symptoms followed by
triggered medium-risk symptoms, in list order. -/
def warningSigns (primary : List String) : List String :=
  highRiskSymptoms.filter (fun s => s ∈ primary)
    ++ mediumRiskSymptoms.filter (fun s => s ∈ primary)

/-- The additive risk score of `_assess_risk`. -/
def riskScore (primary : List String) (duration : ℤ) (info : PatientInfo) :
    ℕ :=
  3 * (highRiskSymptoms.filter (fun s => s ∈ primary)).length
  + 2 * (mediumRiskSymptoms.filter (fun s => s ∈ primary)).length
  + ageFactor info.age
  + (if info.has_chronic_conditions then 2 else 0)
  + (if info.is_pregnant then 1 else 0)
  + durationFactor duration

/-- `_get_patient_risk_factors`. -/
def patientRiskFactors (info : PatientInfo) : List String :=
  (if 65 ≤ info.age then ["Age 65+"]
   else if info.age ≤ 5 then ["Age under 5"] else [])
  ++ (if info.has_chronic_conditions then ["Chronic health conditions"]
      else [])
  ++ (if info.is_smoker then ["Smoker"] else [])
  ++ (if info.is_pregnant then ["Pregnancy"] else [])
  ++ (if info.is_immunocompromised then ["Weakened immune system"] else [])

/-- `_assess_risk`: compute the score and derive urgency, action and wait
time from the `≥ 8` / `≥ 5` thresholds. -/
def assessRisk (parsed : ParsedSymptoms) (info : PatientInfo) :
    RiskAssessment :=
  let s := riskScore parsed.primary_symptoms parsed.duration_days info
  { risk_score := s,
    urgency_level := if 8 ≤ s then "high" else if 5 ≤ s then "medium"
                     else "low",
    recommended_action :=
      if 8 ≤ s then "Seek emergency care immediately"
      else if 5 ≤ s then "See doctor within 24 hours"
      else "Schedule appointment when convenient",
    max_wait_time := if 8 ≤ s then "0-2 hours" else if 5 ≤ s then "24 hours"
                     else "2-3 days",
    warning_signs := warningSigns parsed.primary_symptoms,
    patient_risk_factors := patientRiskFactors info }

/-! ## Recommendations (`_generate_recommendations`) -/

structure Recommendations where
  immediate_actions : List String
  medical_tests : List String
  home_care : List String
  medications : List String
  follow_up : List String
deriving DecidableEq

/-- One entry of the per-disease recommendation table. -/
structure RecTemplate where
  home_care : List String := []
  medical_tests : List String := []
  medications : List String := []
  follow_up : List String := []
deriving DecidableEq

/-- The static `disease_recommendations` table. -/
def diseaseRecTable : List (String × RecTemplate) :=
  [("Common Cold",
    { home_care := ["Rest", "Stay hydrated", "Use saline nasal spray"],
      medications := ["Acetaminophen for fever", "Decongestants if needed"] }),
   ("Influenza (Flu)",
    { medical_tests := ["Influenza test"],
      medications := ["Antiviral medication (if early)", "Fever reducers"],
      home_care := ["Isolate from others", "Rest", "Hydrate"] }),
   ("COVID-19",
    { medical_tests := ["COVID-19 test"],
      home_care := ["Isolate for 5 days", "Wear mask around others",
                    "Monitor oxygen levels"],
      follow_up := ["Check temperature twice daily"] }),
   ("Migraine",
    { home_care := ["Rest in dark, quiet room", "Apply cold compress"],
      medications := ["Prescribed migraine medication", "Pain relievers"] }),
   ("Gastroenteritis",
    { home_care := ["BRAT diet (bananas, rice, applesauce, toast)",
                    "Small sips of water"],
      medications := ["Anti-nausea medication", "Rehydration solutions"] })]

/-- `_generate_recommendations`. -/
def generateRecommendations (diseases : List Prediction)
    (risk : RiskAssessment) : Recommendations :=
  let immediate : List String :=
    if risk.urgency_level = "high" then
      ["Call emergency services (911/112)", "Do not drive yourself",
       "Have someone stay with you"]
    else if risk.urgency_level = "medium" then
      ["Contact your doctor today", "Rest and monitor symptoms"]
    else []
  let fromDisease : RecTemplate :=
    match diseases with
    | [] => {}
    | top :: _ => (diseaseRecTable.lookup top.disease).getD {}
  let homeCare := fromDisease.home_care
  { immediate_actions := immediate,
    medical_tests := fromDisease.medical_tests,
    home_care := if homeCare = [] then
                   ["Rest", "Stay hydrated", "Monitor symptoms"]
                 else homeCare,
    medications := fromDisease.medications,
    follow_up := fromDisease.follow_up }

/-! ## Aggregate confidence and top-level analysis -/

/-- `_calculate_confidence`: 0 with no prediction, otherwise the top
confidence discounted by the number of predictions, divided by 100 and
rounded to two decimals. -/
def calculateConfidence (preds : List Prediction) : ℚ :=
  match preds with
  | [] => 0
  | top :: rest =>
      let c : ℚ :=
        if rest.length + 1 = 1 then top.confidence
        else if 3 ≤ rest.length + 1 then top.confidence * (8/10)
        else top.confidence * (9/10)
      pyRound2 (c / 100)

/-- Result of `analyze_symptoms`. -/
structure AnalysisResult where
  analysis_id : String
  patient_info : PatientInfo
  symptoms_analyzed : ParsedSymptoms
  disease_predictions : List Prediction
  risk_assessment : RiskAssessment
  recommendations : Recommendations
  confidence_score : ℚ
  analysis_timestamp : String
  ai_version : String

/-- `analyze_symptoms`: parse, match, assess, recommend, aggregate.
`now` abstracts `datetime.now()`; it feeds only the analysis id and the
timestamp. -/
def analyzeSymptoms (now : String) (symptoms : SymptomsInput)
    (info : PatientInfo) : AnalysisResult :=
  let parsed := parseSymptomData symptoms
  let preds := predictDiseases parsed.primary_symptoms
  let risk := assessRisk parsed info
  { analysis_id := "ai_" ++ now,
    patient_info := info,
    symptoms_analyzed := parsed,
    disease_predictions := preds,
    risk_assessment := risk,
    recommendations := generateRecommendations preds risk,
    confidence_score := calculateConfidence preds,
    analysis_timestamp := now,
    ai_version := "1.0.0" }

/-! ## Specification-side definitions

For the refinement claims, a second set of definitions written from the
specification's wording (set intersections and their cardinalities),
to be compared with the list-based definitions above. -/

/-- Spec wording: the per-pattern score is `3 × |core ∩ patient|` (added
only when `|core ∩ patient| ≥ min_core_symptoms`) plus
`2 × |common ∩ patient|` plus `4 × |warning ∩ patient|`. -/
def specScore (pat : DiseasePattern) (patient : List String) : ℕ :=
  (if pat.min_core_symptoms ≤ (pat.core_symptoms.toFinset ∩ patient.toFinset).card
   then 3 * (pat.core_symptoms.toFinset ∩ patient.toFinset).card
   else 0)
  + 2 * (pat.common_symptoms.toFinset ∩ patient.toFinset).card
  + 4 * (pat.warning_symptoms.toFinset ∩ patient.toFinset).card

/-- Spec wording: `max_possible_score = 3×|core| + 2×|common| + 4×|warning|`. -/
def specMaxScore (pat : DiseasePattern) : ℕ :=
  3 * pat.core_symptoms.toFinset.card + 2 * pat.common_symptoms.toFinset.card
  + 4 * pat.warning_symptoms.toFinset.card

/-- Spec wording: confidence is
`min(95, score / max_possible_score × 100)` rounded to one decimal. -/
def specConfidence (pat : DiseasePattern) (patient : List String) : ℚ :=
  pyRound1 (min 95 ((specScore pat patient : ℚ) / (specMaxScore pat : ℚ) * 100))

/-- Spec wording of the risk score: `+3` per present high-risk symptom,
`+2` per present medium-risk symptom, the age bracket, the chronic and
pregnancy flags, and the duration contribution. -/
def specRiskScore (primary : List String) (duration : ℤ)
    (info : PatientInfo) : ℕ :=
  3 * (highRiskSymptoms.toFinset.filter (fun s => s ∈ primary)).card
  + 2 * (mediumRiskSymptoms.toFinset.filter (fun s => s ∈ primary)).card
  + (if 65 ≤ info.age then 2 else if info.age ≤ 5 then 1 else 0)
  + (if info.has_chronic_conditions then 2 else 0)
  + (if info.is_pregnant then 1 else 0)
  + durationFactor duration

/-- Position of a prediction's disease in the catalog (used to state the
tie-break/stability property). -/
def catalogIndex (p : Prediction) : ℕ :=
  (diseasePatterns.map Prod.fst).indexOf p.disease

/-! ## Concrete inputs used by the closed theorems -/

/-- A payload with no symptom field set. -/
def emptyInput : SymptomsInput := ⟨fun _ => .absent, none, ""⟩

/-- A payload whose listed symptom fields are boolean `true`. -/
def boolInput (names : List String) : SymptomsInput :=
  ⟨fun n => if n ∈ names then .vBool true else .absent, none, ""⟩

/-- A payload with no symptoms and a 35-day duration. -/
def duration35Input : SymptomsInput := ⟨fun _ => .absent, some 35, ""⟩

/-- A payload giving `fever` the numeric severity `0.5`. -/
def halfFeverInput : SymptomsInput :=
  ⟨fun n => if n = "fever" then .vNum (1/2) else .absent, none, ""⟩

/-! ## Helper lemmas -/

theorem minQ_eq_min (a b : ℚ) : minQ a b = min a b := (min_def a b).symm

theorem ratFloor_eq_floor (q : ℚ) : q.floor = ⌊q⌋ := by
  rw [Rat.floor_def', Rat.floor_def]

theorem roundHalfEven_le {q : ℚ} {n : ℤ} (h : q ≤ n) : roundHalfEven q ≤ n := by
  have hf : ⌊q⌋ ≤ n := by
    have := Int.floor_le_floor h
    rwa [Int.floor_intCast] at this
  unfold roundHalfEven
  rw [ratFloor_eq_floor]
  have hsucc : ¬ q - ⌊q⌋ < 1/2 → ⌊q⌋ + 1 ≤ n := by
    intro h1
    have h2 : (⌊q⌋ : ℚ) + 1/2 ≤ q := by
      have := not_lt.mp h1
      linarith
    have h3 : (⌊q⌋ : ℚ) < (n : ℚ) := by
      have : (q : ℚ) ≤ (n : ℚ) := h
      linarith
    exact Int.cast_lt.mp h3
  split
  · exact hf
  · split
    · next h1 _ => exact hsucc h1
    · split
      · exact hf
      · next h1 _ _ => exact hsucc h1

theorem le_roundHalfEven {q : ℚ} {n : ℤ} (h : (n : ℚ) ≤ q) :
    n ≤ roundHalfEven q := by
  have hf : n ≤ ⌊q⌋ := Int.le_floor.mpr h
  unfold roundHalfEven
  rw [ratFloor_eq_floor]
  split
  · exact hf
  · split
    · omega
    · split
      · exact hf
      · omega

theorem pyRound1_nonneg {q : ℚ} (h : 0 ≤ q) : 0 ≤ pyRound1 q := by
  unfold pyRound1
  have h1 : (0 : ℤ) ≤ roundHalfEven (q * 10) :=
    le_roundHalfEven (by push_cast; linarith)
  have h2 : (0 : ℚ) ≤ (roundHalfEven (q * 10) : ℚ) := by exact_mod_cast h1
  linarith

theorem pyRound1_le_95 {q : ℚ} (h : q ≤ 95) : pyRound1 q ≤ 95 := by
  unfold pyRound1
  have h1 : roundHalfEven (q * 10) ≤ (950 : ℤ) :=
    roundHalfEven_le (by push_cast; linarith)
  have h2 : (roundHalfEven (q * 10) : ℚ) ≤ (950 : ℚ) := by exact_mod_cast h1
  linarith

theorem pyRound2_nonneg {q : ℚ} (h : 0 ≤ q) : 0 ≤ pyRound2 q := by
  unfold pyRound2
  have h1 : (0 : ℤ) ≤ roundHalfEven (q * 100) :=
    le_roundHalfEven (by push_cast; linarith)
  have h2 : (0 : ℚ) ≤ (roundHalfEven (q * 100) : ℚ) := by exact_mod_cast h1
  linarith

theorem pyRound2_le_one {q : ℚ} (h : q ≤ 1) : pyRound2 q ≤ 1 := by
  unfold pyRound2
  have h1 : roundHalfEven (q * 100) ≤ (100 : ℤ) :=
    roundHalfEven_le (by push_cast; linarith)
  have h2 : (roundHalfEven (q * 100) : ℚ) ≤ (100 : ℚ) := by exact_mod_cast h1
  linarith

theorem minQ_le_left (a b : ℚ) : minQ a b ≤ a := by
  unfold minQ
  split
  · exact le_refl a
  · next h => exact le_of_lt (not_le.mp h)

theorem minQ_nonneg {a b : ℚ} (ha : 0 ≤ a) (hb : 0 ≤ b) : 0 ≤ minQ a b := by
  unfold minQ
  split
  · exact ha
  · exact hb

theorem rawConfidence_nonneg (pat : DiseasePattern) (patient : List String) :
    0 ≤ rawConfidence pat patient := by
  unfold rawConfidence
  refine minQ_nonneg (by norm_num) ?_
  split
  · positivity
  · norm_num

theorem rawConfidence_le_95 (pat : DiseasePattern) (patient : List String) :
    rawConfidence pat patient ≤ 95 :=
  minQ_le_left _ _

/-! ### Lemmas about the stable descending sort -/

theorem perm_insertByConfidenceDesc (x : Prediction) (l : List Prediction) :
    List.Perm (insertByConfidenceDesc x l) (x :: l) := by
  induction l with
  | nil => exact List.Perm.refl _
  | cons y ys ih =>
    unfold insertByConfidenceDesc
    split
    · exact List.Perm.refl _
    · exact (ih.cons y).trans (List.Perm.swap x y ys)

theorem sortByConfidenceDesc_perm (l : List Prediction) :
    List.Perm (sortByConfidenceDesc l) l := by
  induction l with
  | nil => exact List.Perm.refl _
  | cons x xs ih =>
    exact (perm_insertByConfidenceDesc x (sortByConfidenceDesc xs)).trans
      (ih.cons x)

theorem pairwise_ge_insertByConfidenceDesc (x : Prediction)
    (l : List Prediction)
    (hl : l.Pairwise (fun a b => b.confidence ≤ a.confidence)) :
    (insertByConfidenceDesc x l).Pairwise
      (fun a b => b.confidence ≤ a.confidence) := by
  induction l with
  | nil => simp [insertByConfidenceDesc]
  | cons y ys ih =>
    rw [List.pairwise_cons] at hl
    unfold insertByConfidenceDesc
    split
    · next hyx =>
      refine List.Pairwise.cons ?_ (List.Pairwise.cons hl.1 hl.2)
      intro z hz
      rcases List.mem_cons.mp hz with rfl | hz2
      · exact hyx
      · exact le_trans (hl.1 z hz2) hyx
    · next hyx =>
      refine List.Pairwise.cons ?_ (ih hl.2)
      intro z hz
      have hz' : z ∈ x :: ys :=
        (perm_insertByConfidenceDesc x ys).mem_iff.mp hz
      rcases List.mem_cons.mp hz' with rfl | hz2
      · exact le_of_lt (not_le.mp hyx)
      · exact hl.1 z hz2

theorem pairwise_ge_sortByConfidenceDesc (l : List Prediction) :
    (sortByConfidenceDesc l).Pairwise
      (fun a b => b.confidence ≤ a.confidence) := by
  induction l with
  | nil => simp [sortByConfidenceDesc]
  | cons x xs ih => exact pairwise_ge_insertByConfidenceDesc x _ ih

theorem pairwise_stable_insertByConfidenceDesc (idx : Prediction → ℕ)
    (x : Prediction) (l : List Prediction)
    (hx : ∀ y ∈ l, idx x < idx y)
    (hl : l.Pairwise (fun a b => a.confidence = b.confidence → idx a < idx b)) :
    (insertByConfidenceDesc x l).Pairwise
      (fun a b => a.confidence = b.confidence → idx a < idx b) := by
  induction l with
  | nil => simp [insertByConfidenceDesc]
  | cons y ys ih =>
    rw [List.pairwise_cons] at hl
    unfold insertByConfidenceDesc
    split
    · refine List.Pairwise.cons ?_ (List.Pairwise.cons hl.1 hl.2)
      intro z hz _
      exact hx z hz
    · next hyx =>
      refine List.Pairwise.cons ?_
        (ih (fun z hz => hx z (List.mem_cons_of_mem y hz)) hl.2)
      intro z hz hconf
      have hz' : z ∈ x :: ys :=
        (perm_insertByConfidenceDesc x ys).mem_iff.mp hz
      rcases List.mem_cons.mp hz' with rfl | hz2
      · exact absurd (le_of_eq hconf) hyx
      · exact hl.1 z hz2 hconf

theorem pairwise_stable_sortByConfidenceDesc (idx : Prediction → ℕ)
    (l : List Prediction) (hl : l.Pairwise (fun a b => idx a < idx b)) :
    (sortByConfidenceDesc l).Pairwise
      (fun a b => a.confidence = b.confidence → idx a < idx b) := by
  induction l with
  | nil => simp [sortByConfidenceDesc]
  | cons x xs ih =>
    rw [List.pairwise_cons] at hl
    refine pairwise_stable_insertByConfidenceDesc idx x _ ?_ (ih hl.2)
    intro y hy
    exact hl.1 y ((sortByConfidenceDesc_perm xs).mem_iff.mp hy)

/-! ### Bridging lemmas between list counting and finite-set cardinality -/

theorem filter_card_of_nodup (l patient : List String) (hl : l.Nodup) :
    (l.toFinset.filter (fun s => s ∈ patient)).card =
      (l.filter (fun s => s ∈ patient)).length := by
  classical
  rw [← List.toFinset_card_of_nodup (hl.filter _)]
  congr 1
  ext a
  simp [List.mem_filter]

theorem inter_card_eq_dedup (l patient : List String) :
    (l.toFinset ∩ patient.toFinset).card =
      ((l.dedup).filter (fun s => s ∈ patient)).length := by
  classical
  rw [← List.toFinset_card_of_nodup ((List.nodup_dedup l).filter _)]
  congr 1
  ext a
  simp [List.mem_filter]

theorem coreMatchCount_eq (pat : DiseasePattern) (patient : List String) :
    coreMatchCount pat patient =
      (pat.core_symptoms.toFinset ∩ patient.toFinset).card :=
  (inter_card_eq_dedup _ _).symm

theorem commonMatchCount_eq (pat : DiseasePattern) (patient : List String) :
    commonMatchCount pat patient =
      (pat.common_symptoms.toFinset ∩ patient.toFinset).card :=
  (inter_card_eq_dedup _ _).symm

theorem warningMatchCount_eq (pat : DiseasePattern) (patient : List String) :
    warningMatchCount pat patient =
      (pat.warning_symptoms.toFinset ∩ patient.toFinset).card :=
  (inter_card_eq_dedup _ _).symm

theorem patternScore_eq_specScore (pat : DiseasePattern)
    (patient : List String) :
    patternScore pat patient = specScore pat patient := by
  unfold patternScore specScore
  rw [coreMatchCount_eq, commonMatchCount_eq, warningMatchCount_eq]

theorem catalog_nodup :
    ∀ np ∈ diseasePatterns, np.2.core_symptoms.Nodup
      ∧ np.2.common_symptoms.Nodup ∧ np.2.warning_symptoms.Nodup := by
  decide

theorem maxPossibleScore_eq_spec {np : String × DiseasePattern}
    (h : np ∈ diseasePatterns) : maxPossibleScore np.2 = specMaxScore np.2 := by
  obtain ⟨h1, h2, h3⟩ := catalog_nodup np h
  unfold maxPossibleScore specMaxScore
  rw [List.toFinset_card_of_nodup h1, List.toFinset_card_of_nodup h2,
    List.toFinset_card_of_nodup h3]

theorem catalog_maxScore_pos :
    ∀ np ∈ diseasePatterns, 0 < maxPossibleScore np.2 := by
  decide

/-! ### Shape lemmas for `predictionFor` -/

theorem predictionFor_eq_some_iff {name : String} {pat : DiseasePattern}
    {patient : List String} {pred : Prediction} :
    predictionFor name pat patient = some pred ↔
      0 < patternScore pat patient ∧
      pred = { disease := name,
               confidence := pyRound1 (rawConfidence pat patient),
               matching_symptoms := matchingSymptoms pat patient,
               missing_symptoms := missingSymptoms pat patient,
               urgency := pat.urgency } := by
  unfold predictionFor
  split
  · next h => simp only [Option.some_inj]; exact ⟨fun he => ⟨h, he.symm⟩,
      fun hp => hp.2.symm⟩
  · next h => simp only [reduceCtorEq, false_iff, not_and]; exact fun hc => absurd hc h

theorem predictionFor_eq_none_iff {name : String} {pat : DiseasePattern}
    {patient : List String} :
    predictionFor name pat patient = none ↔ patternScore pat patient = 0 := by
  unfold predictionFor
  split
  · next h => simp only [reduceCtorEq, false_iff]; omega
  · next h => simp only [true_iff]; omega

/-! ## Claim C1 -/

/-- C1, counterexample: with duration 35 days and every other contribution
zero, the risk score — which then consists of the duration contribution
alone — is 1, not 3: the `elif` makes the `+2` branch unreachable, so the
two duration bonuses can never fire together. -/
theorem C1_counterexample :
    (assessRisk (parseSymptomData duration35Input) {}).risk_score = 1
    ∧ (assessRisk (parseSymptomData duration35Input) {}).risk_score ≠ 3 := by
  with_unfolding_all decide

/-- C1, amended: the duration contribution is `+1` when
`duration_days > 14` and `0` otherwise; the `+2` branch for
`duration_days > 30` is dead code because it sits in the `elif` of the
`> 14` test, so for `duration_days = 35` (all other contributions zero)
the total duration contribution to the risk score is 1. -/
theorem C1_duration_contribution :
    (∀ d : ℤ, durationFactor d = if 14 < d then 1 else 0)
    ∧ (assessRisk (parseSymptomData duration35Input) {}).risk_score = 1 := by
  constructor
  · intro d
    unfold durationFactor
    split
    · rfl
    · next h => exact if_neg (by omega)
  · with_unfolding_all decide

/-! ## Claim C5 -/

/-- C5, counterexample: on the symptom set `{fever, cough, fatigue}` the
"Influenza (Flu)" pattern (core symptoms `{fever, body_aches, fatigue}`)
has a core-symptom match count of 2, not 3 — `cough` is not one of its
core symptoms. -/
theorem C5_counterexample :
    ((diseasePatterns.lookup "Influenza (Flu)").map
        (fun pat => coreMatchCount pat ["fever", "cough", "fatigue"]))
      = some 2
    ∧ some (2 : ℕ) ≠ some 3 := by
  with_unfolding_all decide

/-- C5, amended: on `{fever, cough, fatigue}` both "COVID-19" and
"Influenza (Flu)" appear in the prediction list, with core-symptom match
counts 3 and 2 respectively; the confidences are 36.0 and 32.0 (computed
by the stated formula, see `C2_matcher_formula`), the list is sorted
descending, and the equal-confidence pair Bronchitis / UTI (16.7 each)
retains catalog order. -/
theorem C5_fever_cough_fatigue :
    (predictDiseases ["fever", "cough", "fatigue"]).map
        (fun p => (p.disease, p.confidence)) =
      [("COVID-19", 36), ("Influenza (Flu)", 32), ("Common Cold", 47/2),
       ("Bronchitis", 167/10), ("Urinary Tract Infection (UTI)", 167/10)]
    ∧ ((diseasePatterns.lookup "COVID-19").map
        (fun pat => coreMatchCount pat ["fever", "cough", "fatigue"]))
      = some 3
    ∧ ((diseasePatterns.lookup "Influenza (Flu)").map
        (fun pat => coreMatchCount pat ["fever", "cough", "fatigue"]))
      = some 2 := by
  with_unfolding_all decide

/-! ## Claim C9 -/

/-- C9: `analyze_symptoms` is deterministic — two calls with identical
symptom and patient-info inputs agree on every field of the result except
the analysis identifier and the timestamp (which are the only fields fed
by the clock). -/
theorem C9_deterministic (t1 t2 : String) (symptoms : SymptomsInput)
    (info : PatientInfo) :
    (analyzeSymptoms t1 symptoms info).patient_info
        = (analyzeSymptoms t2 symptoms info).patient_info
    ∧ (analyzeSymptoms t1 symptoms info).symptoms_analyzed
        = (analyzeSymptoms t2 symptoms info).symptoms_analyzed
    ∧ (analyzeSymptoms t1 symptoms info).disease_predictions
        = (analyzeSymptoms t2 symptoms info).disease_predictions
    ∧ (analyzeSymptoms t1 symptoms info).risk_assessment
        = (analyzeSymptoms t2 symptoms info).risk_assessment
    ∧ (analyzeSymptoms t1 symptoms info).recommendations
        = (analyzeSymptoms t2 symptoms info).recommendations
    ∧ (analyzeSymptoms t1 symptoms info).confidence_score
        = (analyzeSymptoms t2 symptoms info).confidence_score
    ∧ (analyzeSymptoms t1 symptoms info).ai_version
        = (analyzeSymptoms t2 symptoms info).ai_version :=
  ⟨rfl, rfl, rfl, rfl, rfl, rfl, rfl⟩

/-! ## Counterexamples for claims C4, C7, C8 -/

/-- C4, counterexample: for the payload `{fever: true}` the matcher yields
two predictions (confidences 16.7 and 8.7), so the claimed aggregate would
be `16.7 × 0.9 / 100 = 0.1503`; the code additionally rounds to two
decimals and returns `0.15`. -/
theorem C4_counterexample :
    (analyzeSymptoms "t" (boolInput ["fever"]) {}).disease_predictions.map
        (fun p => p.confidence) = [167/10, 87/10]
    ∧ (analyzeSymptoms "t" (boolInput ["fever"]) {}).confidence_score = 3/20
    ∧ (3/20 : ℚ) ≠ 167/10 * (9/10) / 100 := by
  with_unfolding_all decide

/-- C7, counterexample: an empty symptom set does not force risk score 0
for every patient info — age 70 alone contributes `+2`. -/
theorem C7_counterexample :
    (parseSymptomData emptyInput).primary_symptoms = []
    ∧ (assessRisk (parseSymptomData emptyInput) { age := 70 }).risk_score = 2
    ∧ (assessRisk (parseSymptomData emptyInput) { age := 70 }).risk_score
        ≠ 0 := by
  with_unfolding_all decide

/-- C8, counterexample: the numeric branch only clamps from above
(`min(10, value)`); the payload `{fever: 0.5}` records severity `0.5`,
which is below the claimed lower bound 1. -/
theorem C8_counterexample :
    (parseSymptomData halfFeverInput).severity_scores = [("fever", 1/2)]
    ∧ ¬ (1 ≤ (1/2 : ℚ)) := by
  with_unfolding_all decide

/-! ## Claim C2 -/

/-- C2: for every catalog entry and every patient symptom set the matcher
computes exactly the specified score (`3·|core ∩ patient|` gated by
`min_core_symptoms`, plus `2·|common ∩ patient|`, plus
`4·|warning ∩ patient|`); a zero score yields no prediction; the matching
list only holds core/common symptoms of the patient (never warning-only
matches); the missing list is `(core ∪ common) − patient`; and the
confidence is `min(95, score / max_possible_score × 100)` rounded to one
decimal. -/
theorem C2_matcher_formula (np : String × DiseasePattern)
    (hnp : np ∈ diseasePatterns) (patient : List String) :
    patternScore np.2 patient = specScore np.2 patient
    ∧ (predictionFor np.1 np.2 patient = none ↔ specScore np.2 patient = 0)
    ∧ ∀ pred, predictionFor np.1 np.2 patient = some pred →
        pred.confidence = specConfidence np.2 patient
        ∧ (∀ s ∈ pred.matching_symptoms,
            (s ∈ np.2.core_symptoms ∨ s ∈ np.2.common_symptoms) ∧ s ∈ patient)
        ∧ (∀ s, s ∈ pred.missing_symptoms ↔
            ((s ∈ np.2.core_symptoms ∨ s ∈ np.2.common_symptoms)
              ∧ s ∉ patient)) := by
  refine ⟨patternScore_eq_specScore np.2 patient, ?_, ?_⟩
  · rw [predictionFor_eq_none_iff, patternScore_eq_specScore]
  · intro pred h
    obtain ⟨hpos, rfl⟩ := predictionFor_eq_some_iff.mp h
    refine ⟨?_, ?_, ?_⟩
    · show pyRound1 (rawConfidence np.2 patient) = specConfidence np.2 patient
      unfold specConfidence rawConfidence
      rw [if_pos (catalog_maxScore_pos np hnp), minQ_eq_min,
        patternScore_eq_specScore, maxPossibleScore_eq_spec hnp]
    · intro s hs
      have hs' : s ∈ (if np.2.min_core_symptoms ≤ coreMatchCount np.2 patient
          then np.2.core_symptoms.filter (fun s => s ∈ patient) else [])
          ∨ s ∈ np.2.common_symptoms.filter (fun s => s ∈ patient) := by
        have := (List.mem_dedup.mp hs)
        exact List.mem_append.mp this
      rcases hs' with h1 | h2
      · split at h1
        · have := List.mem_filter.mp h1
          exact ⟨Or.inl this.1, by simpa using this.2⟩
        · exact absurd h1 (List.not_mem_nil s)
      · have := List.mem_filter.mp h2
        exact ⟨Or.inr this.1, by simpa using this.2⟩
    · intro s
      show s ∈ missingSymptoms np.2 patient ↔ _
      unfold missingSymptoms
      rw [List.mem_filter, List.mem_dedup, List.mem_append]
      simp

/-! ## Claim C3 -/

theorem rawPredictions_pairwise_idx (patient : List String) :
    (rawPredictions patient).Pairwise
      (fun a b => catalogIndex a < catalogIndex b) := by
  unfold rawPredictions
  rw [List.pairwise_filterMap]
  have hcat : diseasePatterns.Pairwise (fun a b =>
      (diseasePatterns.map Prod.fst).indexOf a.1
        < (diseasePatterns.map Prod.fst).indexOf b.1) := by decide
  refine hcat.imp ?_
  intro a b hab p1 hp1 p2 hp2
  rw [Option.mem_def, predictionFor_eq_some_iff] at hp1 hp2
  obtain ⟨_, rfl⟩ := hp1
  obtain ⟨_, rfl⟩ := hp2
  exact hab

/-- C3: for every patient symptom set the matcher's output is sorted by
descending confidence, has at most 5 entries, preserves catalog order
among equal-confidence entries (stability of the sort), and is empty
exactly when no catalog pattern scores above 0.  It is a total function,
so it never fails. -/
theorem C3_output_shape (patient : List String) :
    (predictDiseases patient).Pairwise
        (fun a b => b.confidence ≤ a.confidence)
    ∧ (predictDiseases patient).length ≤ 5
    ∧ (predictDiseases patient).Pairwise
        (fun a b => a.confidence = b.confidence →
          catalogIndex a < catalogIndex b)
    ∧ (predictDiseases patient = [] ↔
        ∀ np ∈ diseasePatterns, patternScore np.2 patient = 0) := by
  refine ⟨?_, ?_, ?_, ?_⟩
  · exact (pairwise_ge_sortByConfidenceDesc _).sublist (List.take_sublist _ _)
  · exact List.length_take_le _ _
  · exact (pairwise_stable_sortByConfidenceDesc catalogIndex _
      (rawPredictions_pairwise_idx patient)).sublist (List.take_sublist _ _)
  · unfold predictDiseases
    constructor
    · intro h
      have hs : sortByConfidenceDesc (rawPredictions patient) = [] := by
        rcases List.take_eq_nil_iff.mp h with h5 | hnil
        · exact absurd h5 (by norm_num)
        · exact hnil
      have hraw : rawPredictions patient = [] :=
        List.Perm.eq_nil ((hs ▸ sortByConfidenceDesc_perm
          (rawPredictions patient)).symm)
      intro np hnp
      exact predictionFor_eq_none_iff.mp
        (List.filterMap_eq_nil_iff.mp hraw np hnp)
    · intro h
      have hraw : rawPredictions patient = [] :=
        List.filterMap_eq_nil_iff.mpr
          (fun np hnp => predictionFor_eq_none_iff.mpr (h np hnp))
      simp [hraw, sortByConfidenceDesc]

/-! ## Claim C4 (amended part) -/

theorem predictDiseases_confidence_bounds (patient : List String) :
    ∀ p ∈ predictDiseases patient, 0 ≤ p.confidence ∧ p.confidence ≤ 95 := by
  intro p hp
  have hp1 : p ∈ sortByConfidenceDesc (rawPredictions patient) :=
    (List.take_sublist _ _).subset hp
  have hp2 : p ∈ rawPredictions patient :=
    (sortByConfidenceDesc_perm _).mem_iff.mp hp1
  obtain ⟨np, _, hsome⟩ := List.mem_filterMap.mp hp2
  obtain ⟨_, rfl⟩ := predictionFor_eq_some_iff.mp hsome
  exact ⟨pyRound1_nonneg (rawConfidence_nonneg _ _),
    pyRound1_le_95 (rawConfidence_le_95 _ _)⟩

/-- C4, amended: every per-disease confidence lies in `[0, 95]`; the
aggregate `confidence_score` is `0` when there is no prediction and
otherwise equals the top confidence scaled by `1.0` / `0.9` / `0.8`
(one / two / three-or-more predictions), divided by 100 **and rounded to
two decimals** (the rounding was missing from the claim); it always lies
in `[0, 1]`. -/
theorem C4_confidence_bounds (now : String) (symptoms : SymptomsInput)
    (info : PatientInfo) :
    (∀ p ∈ (analyzeSymptoms now symptoms info).disease_predictions,
        0 ≤ p.confidence ∧ p.confidence ≤ 95)
    ∧ 0 ≤ (analyzeSymptoms now symptoms info).confidence_score
    ∧ (analyzeSymptoms now symptoms info).confidence_score ≤ 1
    ∧ ((analyzeSymptoms now symptoms info).disease_predictions = [] →
        (analyzeSymptoms now symptoms info).confidence_score = 0)
    ∧ ∀ top rest,
        (analyzeSymptoms now symptoms info).disease_predictions
          = top :: rest →
        (analyzeSymptoms now symptoms info).confidence_score =
          pyRound2 (top.confidence *
            (if rest.length = 0 then 1
             else if 2 ≤ rest.length then 8/10 else 9/10) / 100) := by
  have hbounds := predictDiseases_confidence_bounds
    (parseSymptomData symptoms).primary_symptoms
  have hpred : (analyzeSymptoms now symptoms info).disease_predictions
      = predictDiseases (parseSymptomData symptoms).primary_symptoms := rfl
  have hconf : (analyzeSymptoms now symptoms info).confidence_score
      = calculateConfidence
          (predictDiseases (parseSymptomData symptoms).primary_symptoms) :=
    rfl
  refine ⟨by rw [hpred]; exact hbounds, ?_, ?_, ?_, ?_⟩
  · rw [hconf]
    cases hp : predictDiseases (parseSymptomData symptoms).primary_symptoms
      with
    | nil => norm_num [calculateConfidence]
    | cons top rest =>
      have htop := hbounds top (hp ▸ List.mem_cons_self top rest)
      show (0:ℚ) ≤ pyRound2 _
      apply pyRound2_nonneg
      have h1 : (0:ℚ) ≤ (if rest.length + 1 = 1 then top.confidence
          else if 3 ≤ rest.length + 1 then top.confidence * (8/10)
          else top.confidence * (9/10)) := by
        split
        · exact htop.1
        · split
          · nlinarith [htop.1]
          · nlinarith [htop.1]
      linarith
  · rw [hconf]
    cases hp : predictDiseases (parseSymptomData symptoms).primary_symptoms
      with
    | nil => norm_num [calculateConfidence]
    | cons top rest =>
      have htop := hbounds top (hp ▸ List.mem_cons_self top rest)
      show pyRound2 _ ≤ 1
      apply pyRound2_le_one
      have h1 : (if rest.length + 1 = 1 then top.confidence
          else if 3 ≤ rest.length + 1 then top.confidence * (8/10)
          else top.confidence * (9/10)) ≤ 95 := by
        split
        · exact htop.2
        · split
          · nlinarith [htop.1, htop.2]
          · nlinarith [htop.1, htop.2]
      linarith
  · intro h
    rw [hconf, hpred.symm.trans h]
    rfl
  · intro top rest h
    rw [hconf, hpred.symm.trans h]
    show pyRound2 _ = pyRound2 _
    by_cases h0 : rest.length = 0
    · rw [if_pos (by omega), if_pos h0, mul_one]
    · by_cases h2 : 2 ≤ rest.length
      · rw [if_neg (by omega), if_pos (by omega), if_neg h0, if_pos h2]
      · rw [if_neg (by omega), if_neg (by omega), if_neg h0, if_neg h2]

/-! ### Parser fold lemmas -/

theorem minQ_ten_pos_le {q : ℚ} (hq : 0 < q) :
    0 < minQ 10 q ∧ minQ 10 q ≤ 10 := by
  unfold minQ
  split
  · exact ⟨by norm_num, le_refl 10⟩
  · next h => exact ⟨hq, (not_le.mp h).le⟩

theorem parseFieldValue_severity_bound (name : String) (v : SymValue)
    (acc : ParsedSymptoms)
    (h : ∀ sv ∈ acc.severity_scores, 0 < sv.2 ∧ sv.2 ≤ 10) :
    ∀ sv ∈ (parseFieldValue name v acc).severity_scores,
      0 < sv.2 ∧ sv.2 ≤ 10 := by
  intro sv hsv
  cases v with
  | absent => exact h sv hsv
  | vBool b =>
    simp only [parseFieldValue] at hsv
    split at hsv
    · rcases List.mem_append.mp hsv with h1 | h2
      · exact h sv h1
      · rw [List.mem_singleton.mp h2]
        norm_num
    · exact h sv hsv
  | vNum q =>
    simp only [parseFieldValue] at hsv
    split at hsv
    · next hq =>
      rcases List.mem_append.mp hsv with h1 | h2
      · exact h sv h1
      · rw [List.mem_singleton.mp h2]
        exact minQ_ten_pos_le hq
    · exact h sv hsv
  | vStr s =>
    simp only [parseFieldValue] at hsv
    split at hsv <;> exact h sv hsv

theorem foldl_severity_bound (input : SymptomsInput) (l : List String)
    (acc : ParsedSymptoms)
    (h : ∀ sv ∈ acc.severity_scores, 0 < sv.2 ∧ sv.2 ≤ 10) :
    ∀ sv ∈ (l.foldl
        (fun acc name => parseFieldValue name (input.fields name) acc)
        acc).severity_scores,
      0 < sv.2 ∧ sv.2 ≤ 10 := by
  induction l generalizing acc with
  | nil => exact h
  | cons n ns ih => exact ih _ (parseFieldValue_severity_bound n _ acc h)

theorem parseSymptomData_severity (input : SymptomsInput) :
    (parseSymptomData input).severity_scores =
      (symptomFields.foldl
        (fun acc name => parseFieldValue name (input.fields name) acc)
        { primary_symptoms := [], symptom_details := [],
          severity_scores := [],
          duration_days := input.duration_days.getD 1,
          symptom_text := input.symptom_description }).severity_scores := by
  simp only [parseSymptomData]
  split <;> rfl

theorem parseFieldValue_severity_mono (name : String) (v : SymValue)
    (acc : ParsedSymptoms) {sv : String × ℚ}
    (h : sv ∈ acc.severity_scores) :
    sv ∈ (parseFieldValue name v acc).severity_scores := by
  cases v with
  | absent => exact h
  | vBool b =>
    simp only [parseFieldValue]
    split
    · exact List.mem_append_left _ h
    · exact h
  | vNum q =>
    simp only [parseFieldValue]
    split
    · exact List.mem_append_left _ h
    · exact h
  | vStr s =>
    simp only [parseFieldValue]
    split <;> exact h

theorem foldl_severity_mono (input : SymptomsInput) (l : List String)
    (acc : ParsedSymptoms) {sv : String × ℚ}
    (h : sv ∈ acc.severity_scores) :
    sv ∈ (l.foldl
        (fun acc name => parseFieldValue name (input.fields name) acc)
        acc).severity_scores := by
  induction l generalizing acc with
  | nil => exact h
  | cons n ns ih => exact ih _ (parseFieldValue_severity_mono n _ acc h)

theorem foldl_severity_hit (input : SymptomsInput) (l : List String)
    (acc : ParsedSymptoms) (name : String) (hname : name ∈ l)
    (hval : input.fields name = .vBool true) :
    (name, (5 : ℚ)) ∈ (l.foldl
        (fun acc name => parseFieldValue name (input.fields name) acc)
        acc).severity_scores := by
  induction l generalizing acc with
  | nil => cases hname
  | cons n ns ih =>
    rcases List.mem_cons.mp hname with rfl | hmem
    · rw [List.foldl_cons]
      apply foldl_severity_mono
      rw [hval]
      simp only [parseFieldValue, if_pos]
      exact List.mem_append_right _ (List.mem_singleton_self _)
    · exact ih _ hmem

theorem parseFieldValue_primary_sub (name : String) (v : SymValue)
    (acc : ParsedSymptoms) :
    ∀ s ∈ (parseFieldValue name v acc).primary_symptoms,
      s ∈ acc.primary_symptoms ∨ s = name := by
  intro s hs
  cases v with
  | absent => exact Or.inl hs
  | vBool b =>
    simp only [parseFieldValue] at hs
    split at hs
    · rcases List.mem_append.mp hs with h1 | h2
      · exact Or.inl h1
      · exact Or.inr (List.mem_singleton.mp h2)
    · exact Or.inl hs
  | vNum q =>
    simp only [parseFieldValue] at hs
    split at hs
    · rcases List.mem_append.mp hs with h1 | h2
      · exact Or.inl h1
      · exact Or.inr (List.mem_singleton.mp h2)
    · exact Or.inl hs
  | vStr str =>
    simp only [parseFieldValue] at hs
    split at hs
    · rcases List.mem_append.mp hs with h1 | h2
      · exact Or.inl h1
      · exact Or.inr (List.mem_singleton.mp h2)
    · exact Or.inl hs

theorem foldl_primary_sub (input : SymptomsInput) (l : List String)
    (acc : ParsedSymptoms) :
    ∀ s ∈ (l.foldl
        (fun acc name => parseFieldValue name (input.fields name) acc)
        acc).primary_symptoms,
      s ∈ acc.primary_symptoms ∨ s ∈ l := by
  induction l generalizing acc with
  | nil => exact fun s hs => Or.inl hs
  | cons n ns ih =>
    intro s hs
    rcases ih _ s hs with h1 | h2
    · rcases parseFieldValue_primary_sub n _ acc s h1 with h3 | h3
      · exact Or.inl h3
      · exact Or.inr (h3 ▸ List.mem_cons_self n ns)
    · exact Or.inr (List.mem_cons_of_mem n h2)

theorem extractFromText_sub (txt : String) :
    ∀ s ∈ extractFromText txt, s ∈ symptomKeywords.map Prod.fst := by
  intro s hs
  unfold extractFromText at hs
  obtain ⟨p, hp, rfl⟩ := List.mem_map.mp hs
  exact List.mem_map_of_mem Prod.fst (List.mem_of_mem_filter hp)

theorem parseSymptomData_primary_sub (input : SymptomsInput) :
    ∀ s ∈ (parseSymptomData input).primary_symptoms,
      s ∈ symptomFields ∨ s ∈ symptomKeywords.map Prod.fst := by
  intro s hs
  simp only [parseSymptomData] at hs
  split at hs
  · rcases List.mem_append.mp hs with h1 | h2
    · rcases foldl_primary_sub input symptomFields _ s h1 with h3 | h3
      · exact absurd h3 (List.not_mem_nil s)
      · exact Or.inl h3
    · exact Or.inr (extractFromText_sub _ s (List.mem_of_mem_filter h2))
  · rcases foldl_primary_sub input symptomFields _ s hs with h3 | h3
    · exact absurd h3 (List.not_mem_nil s)
    · exact Or.inl h3

/-! ## Claim C8 (amended part) -/

/-- C8, amended: every severity recorded by the parser lies in `(0, 10]` —
positive and clamped **from above** by `min(10, ·)`; the claimed lower
clamp to 1 does not exist (see `C8_counterexample`).  A boolean-true
symptom field records the default severity 5. -/
theorem C8_severity_range (input : SymptomsInput) :
    (∀ sv ∈ (parseSymptomData input).severity_scores,
        0 < sv.2 ∧ sv.2 ≤ 10)
    ∧ ∀ name ∈ symptomFields, input.fields name = .vBool true →
        (name, (5 : ℚ)) ∈ (parseSymptomData input).severity_scores := by
  constructor
  · intro sv hsv
    rw [parseSymptomData_severity] at hsv
    exact foldl_severity_bound input symptomFields _
      (fun sv h => absurd h (List.not_mem_nil sv)) sv hsv
  · intro name hn hv
    rw [parseSymptomData_severity]
    exact foldl_severity_hit input symptomFields _ name hn hv

/-! ## Claim C10 -/

/-- C10: every symptom name the parser can place in the canonical set comes
from the 20-entry field vocabulary or the 12 text-keyword targets; none of
the five medium-risk names is producible, so the medium-risk `+2` rule
never fires on parsed input, and the warning-sign list can only contain
`chest_pain` or `shortness_of_breath`. -/
theorem C10_producible_vocabulary (input : SymptomsInput)
    (info : PatientInfo) :
    (∀ s ∈ (parseSymptomData input).primary_symptoms,
        s ∈ symptomFields ∨ s ∈ symptomKeywords.map Prod.fst)
    ∧ (∀ s ∈ mediumRiskSymptoms,
        s ∉ symptomFields ∧ s ∉ symptomKeywords.map Prod.fst)
    ∧ mediumRiskSymptoms.filter
        (fun s => s ∈ (parseSymptomData input).primary_symptoms) = []
    ∧ ∀ s ∈ (assessRisk (parseSymptomData input) info).warning_signs,
        s = "chest_pain" ∨ s = "shortness_of_breath" := by
  have hsub := parseSymptomData_primary_sub input
  have hmed : ∀ s ∈ mediumRiskSymptoms,
      s ∉ symptomFields ∧ s ∉ symptomKeywords.map Prod.fst := by decide
  have hfilter : mediumRiskSymptoms.filter
      (fun s => s ∈ (parseSymptomData input).primary_symptoms) = [] := by
    rw [List.filter_eq_nil_iff]
    intro s hs
    simp only [decide_eq_true_eq]
    intro hmem
    rcases hsub s hmem with h | h
    · exact (hmed s hs).1 h
    · exact (hmed s hs).2 h
  refine ⟨hsub, hmed, hfilter, ?_⟩
  have hhigh : ∀ s ∈ highRiskSymptoms,
      (s ∈ symptomFields ∨ s ∈ symptomKeywords.map Prod.fst) →
      s = "chest_pain" ∨ s = "shortness_of_breath" := by decide
  intro s hs
  have hs' : s ∈ highRiskSymptoms.filter
        (fun s => s ∈ (parseSymptomData input).primary_symptoms)
      ++ mediumRiskSymptoms.filter
        (fun s => s ∈ (parseSymptomData input).primary_symptoms) := hs
  rcases List.mem_append.mp hs' with h1 | h2
  · have h3 := List.mem_filter.mp h1
    exact hhigh s h3.1 (hsub s (by simpa using h3.2))
  · rw [hfilter] at h2
    exact absurd h2 (List.not_mem_nil s)

/-! ## Claim C6 -/

/-- C6: the risk score is the stated additive sum (per-symptom high/medium
bonuses, age bracket, chronic/pregnancy flags, duration contribution), the
urgency thresholds are `≥ 8` high / `≥ 5` medium / low, and the concrete
case (age 70, chronic conditions, `chest_pain`, one-day duration) scores
`3 + 2 + 2 = 7`, urgency "medium", action "See doctor within 24 hours". -/
theorem C6_risk_assessment :
    (∀ primary duration info,
        riskScore primary duration info = specRiskScore primary duration info)
    ∧ (∀ parsed info, (assessRisk parsed info).urgency_level =
        (if 8 ≤ riskScore parsed.primary_symptoms parsed.duration_days info
         then "high"
         else if 5 ≤ riskScore parsed.primary_symptoms parsed.duration_days
            info
         then "medium" else "low"))
    ∧ (assessRisk (parseSymptomData (boolInput ["chest_pain"]))
        { age := 70, has_chronic_conditions := true }).risk_score = 7
    ∧ (assessRisk (parseSymptomData (boolInput ["chest_pain"]))
        { age := 70, has_chronic_conditions := true }).urgency_level
      = "medium"
    ∧ (assessRisk (parseSymptomData (boolInput ["chest_pain"]))
        { age := 70, has_chronic_conditions := true }).recommended_action
      = "See doctor within 24 hours" := by
  refine ⟨?_, fun parsed info => rfl, ?_, ?_, ?_⟩
  · intro primary duration info
    unfold riskScore specRiskScore
    rw [filter_card_of_nodup _ _ (by decide : highRiskSymptoms.Nodup),
      filter_card_of_nodup _ _ (by decide : mediumRiskSymptoms.Nodup)]
    rfl
  · with_unfolding_all decide
  · with_unfolding_all decide
  · with_unfolding_all decide

/-! ## Claim C7 (amended part) -/

/-- C7, amended: when the parsed symptom set is empty the matcher always
returns the empty prediction list; the risk score is `0` with urgency
"low" **provided additionally** that no patient factor fires (age strictly
between 5 and 65, no chronic conditions, not pregnant) and the duration is
at most 14 days — otherwise the demographic/duration bonuses alone make
the score positive (see `C7_counterexample`). -/
theorem C7_empty_symptoms (parsed : ParsedSymptoms) (info : PatientInfo)
    (h : parsed.primary_symptoms = []) :
    predictDiseases parsed.primary_symptoms = []
    ∧ (info.age < 65 → 5 < info.age → info.has_chronic_conditions = false →
        info.is_pregnant = false → parsed.duration_days ≤ 14 →
        (assessRisk parsed info).risk_score = 0
        ∧ (assessRisk parsed info).urgency_level = "low") := by
  constructor
  · rw [h]
    with_unfolding_all decide
  · intro h65 h5 hc hp hd
    have hscore : riskScore parsed.primary_symptoms parsed.duration_days
        info = 0 := by
      unfold riskScore ageFactor durationFactor
      rw [h, hc, hp]
      rw [if_neg (by omega : ¬ (65:ℤ) ≤ info.age),
        if_neg (by omega : ¬ info.age ≤ 5),
        if_neg (by omega : ¬ (14:ℤ) < parsed.duration_days),
        if_neg (by omega : ¬ (30:ℤ) < parsed.duration_days)]
      simp
    refine ⟨hscore, ?_⟩
    show (if 8 ≤ riskScore parsed.primary_symptoms parsed.duration_days info
        then "high"
        else if 5 ≤ riskScore parsed.primary_symptoms parsed.duration_days
          info
        then "medium" else "low") = "low"
    rw [hscore]
    norm_num

/-! ## Witnesses -/

/-- Witness for C2 at the catalog's COVID-19 entry and patient set
`{fever, cough}`. -/
theorem C2_witness :
    patternScore (diseasePatterns.get ⟨2, by decide⟩).2 ["fever", "cough"]
      = specScore (diseasePatterns.get ⟨2, by decide⟩).2
          ["fever", "cough"] :=
  (C2_matcher_formula (diseasePatterns.get ⟨2, by decide⟩)
    (by decide) ["fever", "cough"]).1

/-- Witness for C3 at patient set `{fever}`. -/
theorem C3_witness : (predictDiseases ["fever"]).length ≤ 5 :=
  (C3_output_shape ["fever"]).2.1

/-- Witness for C4 at the payload `{fever: true}`. -/
theorem C4_witness :
    0 ≤ (analyzeSymptoms "t" (boolInput ["fever"]) {}).confidence_score
    ∧ (analyzeSymptoms "t" (boolInput ["fever"]) {}).confidence_score ≤ 1 :=
  ⟨(C4_confidence_bounds "t" (boolInput ["fever"]) {}).2.1,
   (C4_confidence_bounds "t" (boolInput ["fever"]) {}).2.2.1⟩

/-- Witness for C7 at the empty payload and default patient info. -/
theorem C7_witness :
    predictDiseases (parseSymptomData emptyInput).primary_symptoms = []
    ∧ (assessRisk (parseSymptomData emptyInput) {}).risk_score = 0
    ∧ (assessRisk (parseSymptomData emptyInput) {}).urgency_level
        = "low" := by
  have h := C7_empty_symptoms (parseSymptomData emptyInput) {}
    (by with_unfolding_all decide)
  have h2 := h.2 (by decide) (by decide) rfl rfl
    (by with_unfolding_all decide)
  exact ⟨h.1, h2.1, h2.2⟩

/-- Witness for C8 at the payload `{fever: true}`. -/
theorem C8_witness :
    ("fever", (5 : ℚ)) ∈
      (parseSymptomData (boolInput ["fever"])).severity_scores
    ∧ 0 < (5 : ℚ) ∧ (5 : ℚ) ≤ 10 := by
  have hmem := (C8_severity_range (boolInput ["fever"])).2 "fever"
    (by decide) (by decide)
  exact ⟨hmem, (C8_severity_range (boolInput ["fever"])).1 _ hmem⟩

/-- Witness for C9 at two distinct clock readings. -/
theorem C9_witness :
    (analyzeSymptoms "a" emptyInput {}).confidence_score
      = (analyzeSymptoms "b" emptyInput {}).confidence_score :=
  (C9_deterministic "a" "b" emptyInput {}).2.2.2.2.2.1

/-- Witness for C10 at the payload `{chest_pain: true}`. -/
theorem C10_witness :
    mediumRiskSymptoms.filter
      (fun s =>
        s ∈ (parseSymptomData (boolInput ["chest_pain"])).primary_symptoms)
      = [] :=
  (C10_producible_vocabulary (boolInput ["chest_pain"]) {}).2.2.1

end ClinicalPredictor
